import Mathlib

/-!
# Handler core of go-logging (`handler.go`)

A shallow embedding of `BaseHandler` and of the protocol `Handle2`, followed by
the properties established about them.

Conventions of the embedding.

* Go's `error` is `Option E`: `nil` is `none`.
* Types and values that `handler.go` uses but does not declare are parameters:
  the level type `Level` (`LogLevelType`), the record type `Record`
  (`LogRecord`), the filter chain `F` (`StandardFilterer`), the registry lookup
  `getLevelName`, the error value `ErrorNoSuchLevel`, the package variable
  `defaultFormatter`.
* `sync.Mutex` (`lock`) is a `Bool`, `true` when held. `Lock` on a held mutex
  does not return, `Unlock` on a free mutex is a fatal runtime error.
* The three `sync.RWMutex` fields are unexported, and every accessor releases
  the one it takes before it returns, so they are free at every call boundary
  of a sequential execution and carry no state here.
* The methods of the `Handler` interface reached through the `handler`
  argument of `Handle2` (`Filter`, `Emit`, `HandleError`) are functions on a
  state `σ` of their own. The interface has no `Lock`/`Unlock`, so they do not
  act on the I/O lock of the `BaseHandler`.
-/

namespace Logging

/-- The `Formatter` interface: an object that renders a record to text. -/
structure Formatter (Record : Type) where
  Format : Record → String

/-- The fields of `BaseHandler` (`handler.go`, lines 44-54). -/
structure BaseHandler (Level Record F : Type) where
  StandardFilterer : F
  name : String
  levels : List Level
  formatter : Option (Formatter Record)
  lock : Bool

section Accessors

variable {Level Record F E : Type}

/-- `NewBaseHandler` (lines 58-65): the levels are stored as given. -/
def NewBaseHandler (NewStandardFilterer : F) (name : String) (levels : List Level) :
    BaseHandler Level Record F :=
  { StandardFilterer := NewStandardFilterer
    name := name
    levels := levels
    formatter := none
    lock := false }

/-- `GetName` (lines 67-71). -/
def BaseHandler.GetName (self : BaseHandler Level Record F) : String :=
  self.name

/-- `SetName` (lines 73-77). -/
def BaseHandler.SetName (self : BaseHandler Level Record F) (name : String) :
    BaseHandler Level Record F :=
  { self with name := name }

/-- `GetLevels` (lines 79-83). -/
def BaseHandler.GetLevels (self : BaseHandler Level Record F) : List Level :=
  self.levels

/-- The `for ... range levels` loop of `SetLevels` (lines 88-93): the result is
the error of the first `return` taken, `none` when the loop runs to its end. -/
def SetLevels.loop (getLevelName : Level → String × Bool) (ErrorNoSuchLevel : E) :
    List Level → Option E
  | [] => none
  | level :: rest =>
    if !(getLevelName level).2 then some ErrorNoSuchLevel
    else SetLevels.loop getLevelName ErrorNoSuchLevel rest

/-- `SetLevels` (lines 85-96): the returned error and the handler afterwards. -/
def BaseHandler.SetLevels (getLevelName : Level → String × Bool) (ErrorNoSuchLevel : E)
    (self : BaseHandler Level Record F) (levels : List Level) :
    Option E × BaseHandler Level Record F :=
  match SetLevels.loop getLevelName ErrorNoSuchLevel levels with
  | some err => (some err, self)
  | none => (none, { self with levels := levels })

/-- `SetFormatter` (lines 98-102); the argument is an interface value and may be `nil`. -/
def BaseHandler.SetFormatter (self : BaseHandler Level Record F)
    (formatter : Option (Formatter Record)) : BaseHandler Level Record F :=
  { self with formatter := formatter }

/-- `Lock` (lines 105-107): `none` when the mutex is held, the call does not return. -/
def BaseHandler.Lock (self : BaseHandler Level Record F) :
    Option (BaseHandler Level Record F) :=
  if self.lock then none else some { self with lock := true }

/-- `Unlock` (lines 110-112): `none` when the mutex is free, a fatal runtime error. -/
def BaseHandler.Unlock (self : BaseHandler Level Record F) :
    Option (BaseHandler Level Record F) :=
  if self.lock then some { self with lock := false } else none

/-- `Format` (lines 117-127). -/
def BaseHandler.Format (defaultFormatter : Formatter Record)
    (self : BaseHandler Level Record F) (record : Record) : String :=
  let formatter :=
    match self.formatter with
    | some f => f
    | none => defaultFormatter
  formatter.Format record

/-- `HandleError` of `BaseHandler` (lines 148-150): empty body. -/
def BaseHandler.HandleError (self : BaseHandler Level Record F) (_ : Record) (_ : E) :
    BaseHandler Level Record F :=
  self

/-- `Flush` of `BaseHandler` (lines 153-156): returns `nil`. -/
def BaseHandler.Flush (self : BaseHandler Level Record F) :
    Option E × BaseHandler Level Record F :=
  (none, self)

/-- `Close` of `BaseHandler` (lines 159-161): empty body. -/
def BaseHandler.Close (self : BaseHandler Level Record F) : BaseHandler Level Record F :=
  self

end Accessors

/-! ## Call sequences on the accessors -/

/-- One call of a mutating accessor. -/
inductive SetterCall (Level Record : Type)
  | SetName (name : String)
  | SetLevels (levels : List Level)
  | SetFormatter (formatter : Option (Formatter Record))

/-- The handler after one accessor call (the error of `SetLevels` is dropped). -/
def SetterCall.apply {Level Record F E : Type} (getLevelName : Level → String × Bool)
    (ErrorNoSuchLevel : E) (self : BaseHandler Level Record F) :
    SetterCall Level Record → BaseHandler Level Record F
  | .SetName name => self.SetName name
  | .SetLevels levels => (self.SetLevels getLevelName ErrorNoSuchLevel levels).2
  | .SetFormatter formatter => self.SetFormatter formatter

/-- The handler after a sequence of accessor calls, first call first. -/
def applySetters {Level Record F E : Type} (getLevelName : Level → String × Bool)
    (ErrorNoSuchLevel : E) :
    List (SetterCall Level Record) → BaseHandler Level Record F → BaseHandler Level Record F
  | [], self => self
  | c :: cs, self =>
    applySetters getLevelName ErrorNoSuchLevel cs (c.apply getLevelName ErrorNoSuchLevel self)

/-- One call of a default lifecycle method of `BaseHandler`. -/
inductive StubCall (Record E : Type)
  | Flush
  | Close
  | HandleError (record : Record) (err : E)

/-- Runs a sequence of default lifecycle calls, first call first: the errors
returned by the `Flush` calls, in order, and the handler afterwards. -/
def runStubs {Level Record F E : Type} :
    List (StubCall Record E) → BaseHandler Level Record F →
      List (Option E) × BaseHandler Level Record F
  | [], self => ([], self)
  | .Flush :: cs, self =>
    let r : Option E × BaseHandler Level Record F := self.Flush
    let rest := runStubs cs r.2
    (r.1 :: rest.1, rest.2)
  | .Close :: cs, self => runStubs cs self.Close
  | .HandleError record err :: cs, self => runStubs cs (self.HandleError record err)

/-! ## `Handle2` -/

/-- The methods of the `Handler` interface that `Handle2` calls on its `handler`
argument, as functions on the state `σ` they act on. -/
structure Handler (Record E σ : Type) where
  Filter : Record → σ → Int × σ
  Emit : Record → σ → Option E × σ
  HandleError : Record → E → σ → σ

/-- What `Handle2` did, in order. `Emit` and `HandleError` carry the state of the
I/O lock at the moment of the call. -/
inductive Event (Record E : Type)
  | Filter (record : Record) (rv : Int)
  | Lock
  | Emit (record : Record) (err : Option E) (ioLocked : Bool)
  | HandleError (record : Record) (err : E) (ioLocked : Bool)
  | Unlock
  deriving DecidableEq

/-- Whether the event is the acquisition of the I/O lock. -/
def Event.isLock {Record E : Type} : Event Record E → Bool
  | .Lock => true
  | _ => false

/-- Whether the event is a call of `Emit`. -/
def Event.isEmit {Record E : Type} : Event Record E → Bool
  | .Emit _ _ _ => true
  | _ => false

/-- Whether the event is a call of `HandleError`. -/
def Event.isHandleError {Record E : Type} : Event Record E → Bool
  | .HandleError _ _ _ => true
  | _ => false

/-- How a call of `Handle2` ends. -/
inductive Outcome
  | returned (rv : Int)
  | blocked
  | fatal
  deriving DecidableEq

/-- A finished (or stuck) call of `Handle2`: how it ended, the `BaseHandler` and
the handler's state at that point, and the calls it made. -/
structure Exec (Level Record F E σ : Type) where
  outcome : Outcome
  self : BaseHandler Level Record F
  world : σ
  trace : List (Event Record E)

/-- `Handle2` (lines 134-145). The deferred `Unlock` runs last, after the body
of the `if`. -/
def BaseHandler.Handle2 {Level Record F E σ : Type} (self : BaseHandler Level Record F)
    (handler : Handler Record E σ) (record : Record) (w : σ) :
    Exec Level Record F E σ :=
  let f := handler.Filter record w
  let rv := f.1
  if rv > 0 then
    match self.Lock with
    | none => ⟨.blocked, self, f.2, [.Filter record rv]⟩
    | some s1 =>
      let em := handler.Emit record f.2
      let r : σ × List (Event Record E) :=
        match em.1 with
        | some err => (handler.HandleError record err em.2, [.HandleError record err s1.lock])
        | none => (em.2, [])
      match s1.Unlock with
      | none =>
        ⟨.fatal, s1, r.1, [.Filter record rv, .Lock, .Emit record em.1 s1.lock] ++ r.2⟩
      | some s2 =>
        ⟨.returned rv, s2, r.1,
          [.Filter record rv, .Lock, .Emit record em.1 s1.lock] ++ r.2 ++ [.Unlock]⟩
  else
    ⟨.returned rv, self, f.2, [.Filter record rv]⟩

/-! ## Concurrent calls of `Handle2` on one handler -/

/-- Where a goroutine stands inside its call of `Handle2`. -/
inductive PC (E : Type)
  | start
  | filtered (rv : Int)
  | locked (rv : Int)
  | emitted (rv : Int) (err : Option E)
  | unlocking (rv : Int)
  | returned (rv : Int)
  | fatal
  deriving DecidableEq

/-- Between the return of `self.Lock()` and the deferred `self.Unlock()`: inside
`Emit` (`locked`), inside `HandleError` or past the error test (`emitted`), or
about to unlock (`unlocking`). -/
def PC.inCS {E : Type} : PC E → Bool
  | .locked _ => true
  | .emitted _ _ => true
  | .unlocking _ => true
  | _ => false

/-- Goroutines `ι` running `Handle2` on the same `BaseHandler`. -/
structure System (ι Level Record F E σ : Type) where
  self : BaseHandler Level Record F
  world : σ
  pc : ι → PC E

/-- All goroutines at the entry of `Handle2`. -/
def System.init {ι Level Record F E σ : Type} (self : BaseHandler Level Record F) (w : σ) :
    System ι Level Record F E σ :=
  { self := self, world := w, pc := fun _ => PC.start }

/-- One step of goroutine `i`, which handles `records i`. A goroutine waiting in
`Lock` for a held mutex, or one that has finished, stays where it is. -/
def System.step {ι Level Record F E σ : Type} [DecidableEq ι] (handler : Handler Record E σ)
    (records : ι → Record) (i : ι) (s : System ι Level Record F E σ) :
    System ι Level Record F E σ :=
  match s.pc i with
  | .start =>
    let f := handler.Filter (records i) s.world
    { s with world := f.2, pc := Function.update s.pc i (.filtered f.1) }
  | .filtered rv =>
    if rv > 0 then
      match s.self.Lock with
      | none => s
      | some s1 => { s with self := s1, pc := Function.update s.pc i (.locked rv) }
    else { s with pc := Function.update s.pc i (.returned rv) }
  | .locked rv =>
    let em := handler.Emit (records i) s.world
    { s with world := em.2, pc := Function.update s.pc i (.emitted rv em.1) }
  | .emitted rv (some err) =>
    { s with world := handler.HandleError (records i) err s.world,
             pc := Function.update s.pc i (.unlocking rv) }
  | .emitted rv none => { s with pc := Function.update s.pc i (.unlocking rv) }
  | .unlocking rv =>
    match s.self.Unlock with
    | none => { s with pc := Function.update s.pc i .fatal }
    | some s2 => { s with self := s2, pc := Function.update s.pc i (.returned rv) }
  | .returned _ => s
  | .fatal => s

/-- The system after the goroutines took steps in the order of `schedule`. -/
def System.run {ι Level Record F E σ : Type} [DecidableEq ι] (handler : Handler Record E σ)
    (records : ι → Record) :
    List ι → System ι Level Record F E σ → System ι Level Record F E σ
  | [], s => s
  | i :: rest, s => System.run handler records rest (System.step handler records i s)

/-- At most one goroutine is in the critical section, and the mutex is held
while one is. -/
def System.Exclusive {ι Level Record F E σ : Type} (s : System ι Level Record F E σ) : Prop :=
  (∀ i j, (s.pc i).inCS = true → (s.pc j).inCS = true → i = j) ∧
  (∀ i, (s.pc i).inCS = true → s.self.lock = true)

/-! ## Concrete instances used to evaluate the definitions -/

/-- A small registry: four known levels. -/
def exampleGetLevelName : Nat → String × Bool
  | 10 => ("DEBUG", true)
  | 20 => ("INFO", true)
  | 30 => ("WARN", true)
  | 40 => ("ERROR", true)
  | _ => ("", false)

/-- A handler over records `Nat`, errors `Nat` and a world that lists what was
written: the filter returns `0` for record `0`, `-1` for record `1` and `1`
otherwise; `Emit` fails with error `7` on record `2` and writes the record
otherwise; `HandleError` writes `100 + err`. -/
def exampleHandler : Handler Nat Nat (List Nat) where
  Filter := fun record w => (if record = 0 then 0 else if record = 1 then -1 else 1, w)
  Emit := fun record w => if record = 2 then (some 7, w) else (none, w ++ [record])
  HandleError := fun _ err w => w ++ [100 + err]

/-- A handler as built by `NewBaseHandler`, over the example types. -/
def exampleBase : BaseHandler Nat Nat Unit :=
  NewBaseHandler () "example" [30, 40]

/-- The example base handler with its I/O lock held, as after `Lock()`. -/
def exampleHeld : BaseHandler Nat Nat Unit :=
  { exampleBase with lock := true }

/-- Two goroutines call `Handle2` with record `3`, which passes the example
filter: goroutine `0` took the lock, goroutine `1` tried `Lock` twice while it was
held, and goroutine `0` has run to its return. Goroutine `1` still waits. -/
def exampleWaiting : System (Fin 2) Nat Nat Unit Nat (List Nat) :=
  System.run exampleHandler (fun _ => 3) [0, 0, 1, 1, 1, 0, 0, 0] (System.init exampleBase [])

/-- The same interleaving with record `2`, whose `Emit` fails with error `7`. -/
def exampleWaitingError : System (Fin 2) Nat Nat Unit Nat (List Nat) :=
  System.run exampleHandler (fun _ => 2) [0, 0, 1, 1, 1, 0, 0, 0] (System.init exampleBase [])

/-! ## `SetLevels` -/

section SetLevelsProofs

variable {Level Record F E : Type}

/-- The loop returns either no error or `ErrorNoSuchLevel`. -/
theorem SetLevels.loop_cases (getLevelName : Level → String × Bool) (ErrorNoSuchLevel : E)
    (levels : List Level) :
    SetLevels.loop getLevelName ErrorNoSuchLevel levels = none ∨
      SetLevels.loop getLevelName ErrorNoSuchLevel levels = some ErrorNoSuchLevel := by
  induction levels with
  | nil => exact Or.inl rfl
  | cons level rest ih =>
    unfold SetLevels.loop
    by_cases h : (getLevelName level).2 = true
    · simpa [h] using ih
    · simp [h]

/-- The loop runs to its end exactly when every level is recognized. -/
theorem SetLevels.loop_eq_none_iff (getLevelName : Level → String × Bool)
    (ErrorNoSuchLevel : E) (levels : List Level) :
    SetLevels.loop getLevelName ErrorNoSuchLevel levels = none ↔
      ∀ level ∈ levels, (getLevelName level).2 = true := by
  induction levels with
  | nil => simp [SetLevels.loop]
  | cons level rest ih =>
    unfold SetLevels.loop
    by_cases h : (getLevelName level).2 = true
    · simp [h, ih]
    · simp [h]

/-- C1: when the candidate list holds a level the registry does not recognize,
at any position, `SetLevels` returns `ErrorNoSuchLevel` and `GetLevels` afterwards
returns the list it returned before the call. -/
theorem SetLevels_unrecognized (getLevelName : Level → String × Bool) (ErrorNoSuchLevel : E)
    (self : BaseHandler Level Record F) (levels : List Level)
    (h : ∃ level ∈ levels, (getLevelName level).2 = false) :
    (self.SetLevels getLevelName ErrorNoSuchLevel levels).1 = some ErrorNoSuchLevel ∧
      (self.SetLevels getLevelName ErrorNoSuchLevel levels).2.GetLevels = self.GetLevels := by
  have hne : SetLevels.loop getLevelName ErrorNoSuchLevel levels ≠ none := by
    intro hn
    obtain ⟨level, hmem, hbad⟩ := h
    have := (SetLevels.loop_eq_none_iff getLevelName ErrorNoSuchLevel levels).1 hn level hmem
    rw [hbad] at this
    exact Bool.false_ne_true this
  have hsome : SetLevels.loop getLevelName ErrorNoSuchLevel levels = some ErrorNoSuchLevel :=
    (SetLevels.loop_cases getLevelName ErrorNoSuchLevel levels).resolve_left hne
  simp [BaseHandler.SetLevels, hsome]

/-- A list with a recognized level first and an unrecognized one after it. -/
theorem SetLevels_unrecognized_witness :
    (∃ level ∈ [30, 99], (exampleGetLevelName level).2 = false) ∧
      (exampleBase.SetLevels exampleGetLevelName (0 : Nat) [30, 99]).1 = some 0 ∧
      (exampleBase.SetLevels exampleGetLevelName (0 : Nat) [30, 99]).2.GetLevels =
        exampleBase.GetLevels :=
  ⟨⟨99, by decide, by decide⟩,
    SetLevels_unrecognized exampleGetLevelName 0 exampleBase [30, 99] ⟨99, by decide, by decide⟩⟩

/-- C2: when every level of the candidate list is recognized (the empty list
included), `SetLevels` returns no error and `GetLevels` afterwards is the supplied
list. -/
theorem SetLevels_recognized (getLevelName : Level → String × Bool) (ErrorNoSuchLevel : E)
    (self : BaseHandler Level Record F) (levels : List Level)
    (h : ∀ level ∈ levels, (getLevelName level).2 = true) :
    (self.SetLevels getLevelName ErrorNoSuchLevel levels).1 = none ∧
      (self.SetLevels getLevelName ErrorNoSuchLevel levels).2.GetLevels = levels := by
  have hn := (SetLevels.loop_eq_none_iff getLevelName ErrorNoSuchLevel levels).2 h
  simp [BaseHandler.SetLevels, hn, BaseHandler.GetLevels]

/-- The list `[10, 20]` replaces the levels `[30, 40]`. -/
theorem SetLevels_recognized_witness :
    (∀ level ∈ [10, 20], (exampleGetLevelName level).2 = true) ∧
      (exampleBase.SetLevels exampleGetLevelName (0 : Nat) [10, 20]).1 = none ∧
      (exampleBase.SetLevels exampleGetLevelName (0 : Nat) [10, 20]).2.GetLevels = [10, 20] :=
  ⟨by decide, SetLevels_recognized exampleGetLevelName 0 exampleBase [10, 20] (by decide)⟩

/-- `SetLevels` with the empty list empties the levels and returns no error. -/
theorem SetLevels_nil (getLevelName : Level → String × Bool) (ErrorNoSuchLevel : E)
    (self : BaseHandler Level Record F) :
    (self.SetLevels getLevelName ErrorNoSuchLevel []).1 = none ∧
      (self.SetLevels getLevelName ErrorNoSuchLevel []).2.GetLevels = [] := by
  simp [BaseHandler.SetLevels, SetLevels.loop, BaseHandler.GetLevels]

end SetLevelsProofs

/-! ## The levels a handler holds -/

section LevelsProofs

variable {Level Record F E : Type}

/-- `SetLevels` keeps the levels recognized: whatever the candidate list, the
levels afterwards are recognized when those before were. -/
theorem SetLevels_keeps_recognized (getLevelName : Level → String × Bool)
    (ErrorNoSuchLevel : E) (self : BaseHandler Level Record F) (levels : List Level)
    (h : ∀ level ∈ self.GetLevels, (getLevelName level).2 = true) :
    ∀ level ∈ (self.SetLevels getLevelName ErrorNoSuchLevel levels).2.GetLevels,
      (getLevelName level).2 = true := by
  unfold BaseHandler.SetLevels
  cases hl : SetLevels.loop getLevelName ErrorNoSuchLevel levels with
  | some err => simpa using h
  | none =>
    have := (SetLevels.loop_eq_none_iff getLevelName ErrorNoSuchLevel levels).1 hl
    simpa [BaseHandler.GetLevels] using this

/-- Every accessor call keeps the levels recognized. -/
theorem applySetters_keeps_recognized (getLevelName : Level → String × Bool)
    (ErrorNoSuchLevel : E) (calls : List (SetterCall Level Record))
    (self : BaseHandler Level Record F)
    (h : ∀ level ∈ self.GetLevels, (getLevelName level).2 = true) :
    ∀ level ∈ (applySetters getLevelName ErrorNoSuchLevel calls self).GetLevels,
      (getLevelName level).2 = true := by
  induction calls generalizing self with
  | nil => simpa [applySetters] using h
  | cons c cs ih =>
    unfold applySetters
    apply ih
    cases c with
    | SetName name => simpa [SetterCall.apply, BaseHandler.SetName, BaseHandler.GetLevels] using h
    | SetLevels levels =>
      exact SetLevels_keeps_recognized getLevelName ErrorNoSuchLevel self levels h
    | SetFormatter formatter =>
      simpa [SetterCall.apply, BaseHandler.SetFormatter, BaseHandler.GetLevels] using h

/-- `NewBaseHandler` stores the list it is given, whatever it holds. -/
theorem NewBaseHandler_GetLevels (NewStandardFilterer : F) (name : String)
    (levels : List Level) :
    (NewBaseHandler NewStandardFilterer name levels :
      BaseHandler Level Record F).GetLevels = levels :=
  rfl

/-- C6, at the failing input: level `99` is unknown to the example registry, and
the handler built by `NewBaseHandler () "h" [99]` holds it, also after `SetName`,
`SetFormatter` and a rejected `SetLevels`. -/
theorem NewBaseHandler_holds_unrecognized :
    (exampleGetLevelName 99).2 = false ∧
      (NewBaseHandler () "h" [99] : BaseHandler Nat Nat Unit).GetLevels = [99] ∧
      (applySetters exampleGetLevelName (0 : Nat)
        [.SetName "g", .SetFormatter none, .SetLevels [98]]
        (NewBaseHandler () "h" [99] : BaseHandler Nat Nat Unit)).GetLevels = [99] := by
  refine ⟨rfl, rfl, rfl⟩

end LevelsProofs

/-! ## `Format` -/

section FormatProofs

variable {Level Record F E : Type}

/-- C7: on a handler as built by `NewBaseHandler`, and on any handler whose
formatter is unset, `Format` gives the output of `defaultFormatter`; after
`SetFormatter f`, `Format` gives the output of `f`. -/
theorem Format_fallback (defaultFormatter : Formatter Record) (record : Record) :
    (∀ (NewStandardFilterer : F) (name : String) (levels : List Level),
      (NewBaseHandler NewStandardFilterer name levels :
        BaseHandler Level Record F).Format defaultFormatter record =
          defaultFormatter.Format record) ∧
    (∀ self : BaseHandler Level Record F,
      (self.SetFormatter none).Format defaultFormatter record =
        defaultFormatter.Format record) ∧
    (∀ (self : BaseHandler Level Record F) (f : Formatter Record),
      (self.SetFormatter (some f)).Format defaultFormatter record = f.Format record) :=
  ⟨fun _ _ _ => rfl, fun _ => rfl, fun _ _ => rfl⟩

/-- `SetName` and `SetLevels` leave the output of `Format` as it was. -/
theorem Format_frame (getLevelName : Level → String × Bool) (ErrorNoSuchLevel : E)
    (defaultFormatter : Formatter Record) (self : BaseHandler Level Record F)
    (record : Record) (name : String) (levels : List Level) :
    (self.SetName name).Format defaultFormatter record = self.Format defaultFormatter record ∧
      (self.SetLevels getLevelName ErrorNoSuchLevel levels).2.Format defaultFormatter record =
        self.Format defaultFormatter record := by
  refine ⟨rfl, ?_⟩
  unfold BaseHandler.SetLevels
  cases SetLevels.loop getLevelName ErrorNoSuchLevel levels <;> rfl

end FormatProofs

/-! ## The default lifecycle methods -/

section StubProofs

variable {Level Record F E : Type}

/-- Any sequence of default calls returns the handler it was given, and every
error collected from `Flush` is `nil`. -/
theorem runStubs_eq (calls : List (StubCall Record E)) (self : BaseHandler Level Record F) :
    (runStubs calls self).2 = self ∧ ∀ err ∈ (runStubs calls self).1, err = none := by
  induction calls generalizing self with
  | nil => simp [runStubs]
  | cons c cs ih =>
    cases c with
    | Flush => simpa [runStubs, BaseHandler.Flush] using ih self
    | Close => simpa [runStubs, BaseHandler.Close] using ih self
    | HandleError record err => simpa [runStubs, BaseHandler.HandleError] using ih self

/-- C10: for every handler state and every finite sequence, in any order, of
default `Flush`, `Close` and `HandleError` calls, every `Flush` returns no error,
and the name, the levels, the formatter and the state of the I/O lock are as
before. -/
theorem stubs_are_noops (calls : List (StubCall Record E))
    (self : BaseHandler Level Record F) :
    (∀ err ∈ (runStubs calls self).1, err = none) ∧
      (runStubs calls self).2.GetName = self.GetName ∧
      (runStubs calls self).2.GetLevels = self.GetLevels ∧
      (runStubs calls self).2.formatter = self.formatter ∧
      (runStubs calls self).2.lock = self.lock ∧
      (runStubs calls self).2 = self := by
  have h := runStubs_eq calls self
  refine ⟨h.2, ?_, ?_, ?_, ?_, h.1⟩ <;> rw [h.1]

end StubProofs

/-! ## `Handle2`, one call -/

section Handle2Proofs

variable {Level Record F E σ : Type}

/-- With the filter not passed, the call returns after `Filter`. -/
theorem Handle2_eq_of_rejected (self : BaseHandler Level Record F)
    (handler : Handler Record E σ) (record : Record) (w : σ)
    (h : (handler.Filter record w).1 ≤ 0) :
    self.Handle2 handler record w =
      ⟨.returned (handler.Filter record w).1, self, (handler.Filter record w).2,
        [.Filter record (handler.Filter record w).1]⟩ := by
  unfold BaseHandler.Handle2
  simp [not_lt.mpr h]

/-- With the filter passed and the I/O lock held, the call waits in `Lock`. -/
theorem Handle2_eq_of_held (self : BaseHandler Level Record F)
    (handler : Handler Record E σ) (record : Record) (w : σ)
    (h : 0 < (handler.Filter record w).1) (hheld : self.lock = true) :
    self.Handle2 handler record w =
      ⟨.blocked, self, (handler.Filter record w).2,
        [.Filter record (handler.Filter record w).1]⟩ := by
  unfold BaseHandler.Handle2
  simp [h, BaseHandler.Lock, hheld]

/-- With the filter passed and the I/O lock free, the call runs the critical
section and returns. -/
theorem Handle2_eq_of_free (self : BaseHandler Level Record F)
    (handler : Handler Record E σ) (record : Record) (w : σ)
    (h : 0 < (handler.Filter record w).1) (hfree : self.lock = false) :
    self.Handle2 handler record w =
      ⟨.returned (handler.Filter record w).1, self,
        (match (handler.Emit record (handler.Filter record w).2).1 with
          | some err =>
            handler.HandleError record err (handler.Emit record (handler.Filter record w).2).2
          | none => (handler.Emit record (handler.Filter record w).2).2),
        [.Filter record (handler.Filter record w).1, .Lock,
          .Emit record (handler.Emit record (handler.Filter record w).2).1 true] ++
        (match (handler.Emit record (handler.Filter record w).2).1 with
          | some err => [.HandleError record err true]
          | none => []) ++ [.Unlock]⟩ := by
  obtain ⟨sf, name, levels, formatter, lock⟩ := self
  simp only at hfree
  subst hfree
  unfold BaseHandler.Handle2
  cases hem : (handler.Emit record (handler.Filter record w).2).1 <;>
    simp [h, BaseHandler.Lock, BaseHandler.Unlock, hem]

/-- C3: when `Filter` returns a value `rv ≤ 0`, `Handle2` returns `rv`; the only
call it makes is `Filter`, so `Emit` and `HandleError` are not invoked and the I/O
lock is not acquired; the `BaseHandler` is as before, in whichever state its lock
was. -/
theorem Handle2_rejected (self : BaseHandler Level Record F)
    (handler : Handler Record E σ) (record : Record) (w : σ)
    (h : (handler.Filter record w).1 ≤ 0) :
    (self.Handle2 handler record w).outcome = .returned (handler.Filter record w).1 ∧
      (self.Handle2 handler record w).trace = [.Filter record (handler.Filter record w).1] ∧
      (∀ ev ∈ (self.Handle2 handler record w).trace,
        ev.isEmit = false ∧ ev.isHandleError = false ∧ ev.isLock = false) ∧
      (self.Handle2 handler record w).self = self ∧
      (self.Handle2 handler record w).world = (handler.Filter record w).2 := by
  rw [Handle2_eq_of_rejected self handler record w h]
  simp [Event.isEmit, Event.isHandleError, Event.isLock]

/-- Record `0` is rejected with value `0` by the example handler. -/
theorem Handle2_rejected_witness :
    (exampleHandler.Filter 0 []).1 ≤ 0 ∧
      (exampleBase.Handle2 exampleHandler 0 []).outcome =
        .returned (exampleHandler.Filter 0 []).1 ∧
      (exampleBase.Handle2 exampleHandler 0 []).trace =
        [.Filter 0 (exampleHandler.Filter 0 []).1] ∧
      (∀ ev ∈ (exampleBase.Handle2 exampleHandler 0 []).trace,
        ev.isEmit = false ∧ ev.isHandleError = false ∧ ev.isLock = false) ∧
      (exampleBase.Handle2 exampleHandler 0 []).self = exampleBase ∧
      (exampleBase.Handle2 exampleHandler 0 []).world = (exampleHandler.Filter 0 []).2 :=
  ⟨by decide, Handle2_rejected exampleBase exampleHandler 0 [] (by decide)⟩

/-- A goroutine that waits in `Lock` for a held mutex stays where it is, however
often it is scheduled, and changes nothing. -/
theorem System.run_waiting {ι : Type} [DecidableEq ι] (handler : Handler Record E σ)
    (records : ι → Record) (i : ι) (s : System ι Level Record F E σ) (rv : Int)
    (hrv : 0 < rv) (hpc : s.pc i = .filtered rv) (hheld : s.self.lock = true) (n : Nat) :
    System.run handler records (List.replicate n i) s = s := by
  induction n with
  | zero => rfl
  | succ n ih =>
    have hstep : System.step handler records i s = s := by
      unfold System.step
      simp [hpc, hrv, BaseHandler.Lock, hheld]
    simp only [List.replicate_succ, System.run]
    rw [hstep]
    exact ih

/-- A goroutine that finds the mutex free runs the critical section in its next
four steps: `Emit` once, `HandleError` when `Emit` returned an error, `Unlock`. -/
theorem System.run_completed {ι : Type} [DecidableEq ι] (handler : Handler Record E σ)
    (records : ι → Record) (i : ι) (s : System ι Level Record F E σ) (rv : Int)
    (hrv : 0 < rv) (hpc : s.pc i = .filtered rv) (hfree : s.self.lock = false) :
    System.run handler records [i, i, i, i] s =
      { self := s.self
        world :=
          (match (handler.Emit (records i) s.world).1 with
            | some err =>
              handler.HandleError (records i) err (handler.Emit (records i) s.world).2
            | none => (handler.Emit (records i) s.world).2)
        pc := Function.update s.pc i (.returned rv) } := by
  obtain ⟨⟨sf, name, levels, formatter, lock⟩, world, pc⟩ := s
  simp only at hpc hfree
  subst hfree
  cases hem : (handler.Emit (records i) world).1 <;>
    simp [System.run, System.step, hpc, hrv, BaseHandler.Lock, BaseHandler.Unlock, hem]

/-- C4, as stated, fails when the I/O lock is held and stays held: after `Lock()`
on the example base handler, `Handle2` on record `3`, which the filter passes with
priority `1`, waits in `Lock`; it does not return, `Emit` is not invoked and
nothing is written. -/
theorem Handle2_accepted_blocked :
    exampleBase.Lock = some exampleHeld ∧
      (exampleHandler.Filter 3 []).1 = 1 ∧
      (exampleHeld.Handle2 exampleHandler 3 []).outcome = .blocked ∧
      (exampleHeld.Handle2 exampleHandler 3 []).outcome ≠ .returned 1 ∧
      ((exampleHeld.Handle2 exampleHandler 3 []).trace.filter Event.isEmit).length = 0 ∧
      (exampleHeld.Handle2 exampleHandler 3 []).world = [] := by
  have h := Handle2_eq_of_held exampleHeld exampleHandler 3 [] (by decide) rfl
  rw [h]
  refine ⟨rfl, rfl, rfl, by decide, rfl, rfl⟩

/-- C4, amended. `Filter` returns a positive `P` for the record.
With the I/O lock free at the call, `Handle2` invokes `Emit` exactly once, with the
record it was given and under the lock, and returns `P`, whether `Emit` returns an
error or not: the calls are `Filter, Lock, Emit, (HandleError,) Unlock`, the
handler's state is the one `Emit` (and `HandleError` after an error) left, applied
once to the state `Filter` left, and the `BaseHandler` is as before. With the I/O
lock held, the call waits in `Lock` with `Emit` not invoked. A call that waits
(goroutine `i` of a system `s`, standing behind `Filter`) stays as it is while the
lock is held, and once the lock is free its next four steps take the lock, apply
`Emit` once to the state they find, and return `P` with the lock free again. -/
theorem Handle2_accepted {ι : Type} [DecidableEq ι] (self : BaseHandler Level Record F)
    (handler : Handler Record E σ) (record : Record) (w : σ)
    (records : ι → Record) (i : ι) (s : System ι Level Record F E σ)
    (h : 0 < (handler.Filter record w).1) (hrec : records i = record)
    (hpc : s.pc i = .filtered (handler.Filter record w).1) :
    self.Handle2 handler record w =
        (if self.lock then
          ⟨.blocked, self, (handler.Filter record w).2,
            [.Filter record (handler.Filter record w).1]⟩
        else
          ⟨.returned (handler.Filter record w).1, self,
            (match (handler.Emit record (handler.Filter record w).2).1 with
              | some err =>
                handler.HandleError record err
                  (handler.Emit record (handler.Filter record w).2).2
              | none => (handler.Emit record (handler.Filter record w).2).2),
            [.Filter record (handler.Filter record w).1, .Lock,
              .Emit record (handler.Emit record (handler.Filter record w).2).1 true] ++
            (match (handler.Emit record (handler.Filter record w).2).1 with
              | some err => [.HandleError record err true]
              | none => []) ++ [.Unlock]⟩) ∧
      (self.Handle2 handler record w).trace.filter Event.isEmit =
        (if self.lock then []
          else [.Emit record (handler.Emit record (handler.Filter record w).2).1 true]) ∧
      System.run handler records [i, i, i, i] s =
        (if s.self.lock then s
        else
          { self := s.self
            world :=
              (match (handler.Emit record s.world).1 with
                | some err => handler.HandleError record err (handler.Emit record s.world).2
                | none => (handler.Emit record s.world).2)
            pc := Function.update s.pc i (.returned (handler.Filter record w).1) }) := by
  subst hrec
  refine ⟨?_, ?_, ?_⟩
  · cases hl : self.lock with
    | true => simp [Handle2_eq_of_held self handler _ w h hl]
    | false => simp [Handle2_eq_of_free self handler _ w h hl]
  · cases hl : self.lock with
    | true => simp [Handle2_eq_of_held self handler _ w h hl, Event.isEmit, List.filter]
    | false =>
      rw [Handle2_eq_of_free self handler _ w h hl]
      cases (handler.Emit (records i) (handler.Filter (records i) w).2).1 <;>
        simp [Event.isEmit, List.filter]
  · cases hl : s.self.lock with
    | true =>
      simpa using System.run_waiting handler records i s _ h hpc hl 4
    | false =>
      simpa using System.run_completed handler records i s _ h hpc hl

/-- The call of goroutine `1` in `exampleWaiting`: it waited while goroutine `0`
held the lock, finds the lock free and the record of goroutine `0` written, and
completes. -/
theorem Handle2_accepted_witness :
    (0 < (exampleHandler.Filter 3 []).1 ∧ (fun _ : Fin 2 => 3) 1 = 3 ∧
        exampleWaiting.pc 1 = .filtered (exampleHandler.Filter 3 []).1 ∧
        exampleWaiting.self.lock = false ∧ exampleWaiting.world = [3]) ∧
      (exampleBase.Handle2 exampleHandler 3 [] =
        (if exampleBase.lock then
          ⟨.blocked, exampleBase, (exampleHandler.Filter 3 []).2,
            [.Filter 3 (exampleHandler.Filter 3 []).1]⟩
        else
          ⟨.returned (exampleHandler.Filter 3 []).1, exampleBase,
            (match (exampleHandler.Emit 3 (exampleHandler.Filter 3 []).2).1 with
              | some err =>
                exampleHandler.HandleError 3 err
                  (exampleHandler.Emit 3 (exampleHandler.Filter 3 []).2).2
              | none => (exampleHandler.Emit 3 (exampleHandler.Filter 3 []).2).2),
            [.Filter 3 (exampleHandler.Filter 3 []).1, .Lock,
              .Emit 3 (exampleHandler.Emit 3 (exampleHandler.Filter 3 []).2).1 true] ++
            (match (exampleHandler.Emit 3 (exampleHandler.Filter 3 []).2).1 with
              | some err => [.HandleError 3 err true]
              | none => []) ++ [.Unlock]⟩) ∧
      (exampleBase.Handle2 exampleHandler 3 []).trace.filter Event.isEmit =
        (if exampleBase.lock then []
          else [.Emit 3 (exampleHandler.Emit 3 (exampleHandler.Filter 3 []).2).1 true]) ∧
      System.run exampleHandler (fun _ : Fin 2 => 3) [1, 1, 1, 1] exampleWaiting =
        (if exampleWaiting.self.lock then exampleWaiting
        else
          { self := exampleWaiting.self
            world :=
              (match (exampleHandler.Emit 3 exampleWaiting.world).1 with
                | some err =>
                  exampleHandler.HandleError 3 err (exampleHandler.Emit 3 exampleWaiting.world).2
                | none => (exampleHandler.Emit 3 exampleWaiting.world).2)
            pc := Function.update exampleWaiting.pc 1
              (.returned (exampleHandler.Filter 3 []).1) })) :=
  ⟨⟨by decide, rfl, by decide, by decide, by decide⟩,
    Handle2_accepted exampleBase exampleHandler 3 [] (fun _ : Fin 2 => 3) 1 exampleWaiting
      (by decide) rfl (by decide)⟩

/-- Whenever the calls of `Handle2` include an `Emit` that returned the error `e`,
the call started with the lock free, made exactly the calls
`Filter, Lock, Emit, HandleError, Unlock`, applied `HandleError` once to the state
`Emit` left, and returned with the lock free. -/
theorem Handle2_of_emit_event (self : BaseHandler Level Record F)
    (handler : Handler Record E σ) (record : Record) (w : σ) (e : E) (ioLocked : Bool)
    (h : Event.Emit record (some e) ioLocked ∈ (self.Handle2 handler record w).trace) :
    self.lock = false ∧ 0 < (handler.Filter record w).1 ∧
      self.Handle2 handler record w =
        ⟨.returned (handler.Filter record w).1, self,
          handler.HandleError record e (handler.Emit record (handler.Filter record w).2).2,
          [.Filter record (handler.Filter record w).1, .Lock, .Emit record (some e) true,
            .HandleError record e true, .Unlock]⟩ := by
  by_cases hrv : 0 < (handler.Filter record w).1
  · cases hl : self.lock with
    | true =>
      rw [Handle2_eq_of_held self handler record w hrv hl] at h
      simp at h
    | false =>
      rw [Handle2_eq_of_free self handler record w hrv hl] at h ⊢
      cases hem : (handler.Emit record (handler.Filter record w).2).1 with
      | none => simp [hem] at h
      | some err =>
        simp [hem] at h
        obtain ⟨rfl, rfl⟩ := h
        simp [hrv]
  · rw [Handle2_eq_of_rejected self handler record w (not_lt.mp hrv)] at h
    simp at h

/-- C8, at the failing input: the example filter returns `-1` for record `1`;
`Handle2` does not invoke `Emit` and returns `-1`, which is not zero. -/
theorem Handle2_negative_not_zero :
    (exampleHandler.Filter 1 []).1 = -1 ∧
      ((exampleBase.Handle2 exampleHandler 1 []).trace.filter Event.isEmit).length = 0 ∧
      (exampleBase.Handle2 exampleHandler 1 []).outcome = .returned (-1) ∧
      (exampleBase.Handle2 exampleHandler 1 []).outcome ≠ .returned 0 := by
  have h := Handle2_eq_of_rejected exampleBase exampleHandler 1 [] (by decide)
  rw [h]
  refine ⟨rfl, rfl, rfl, by decide⟩

/-- The value `Handle2` returns is positive exactly when `Emit` was invoked: a
returned value that is zero or negative means the record was dropped. -/
theorem Handle2_returned_pos_iff (self : BaseHandler Level Record F)
    (handler : Handler Record E σ) (record : Record) (w : σ) (rv : Int)
    (h : (self.Handle2 handler record w).outcome = .returned rv) :
    0 < rv ↔ ((self.Handle2 handler record w).trace.filter Event.isEmit).length = 1 := by
  by_cases hrv : 0 < (handler.Filter record w).1
  · cases hl : self.lock with
    | true =>
      rw [Handle2_eq_of_held self handler record w hrv hl] at h
      simp at h
    | false =>
      rw [Handle2_eq_of_free self handler record w hrv hl] at h ⊢
      simp only [Outcome.returned.injEq] at h
      subst h
      cases (handler.Emit record (handler.Filter record w).2).1 <;>
        simp [Event.isEmit, List.filter, hrv]
  · rw [Handle2_eq_of_rejected self handler record w (not_lt.mp hrv)] at h ⊢
    simp only [Outcome.returned.injEq] at h
    subst h
    simp [Event.isEmit, List.filter, hrv]

end Handle2Proofs

/-! ## `Handle2`, concurrent calls -/

/-- At the entry of the calls no goroutine is in the critical section. -/
theorem System.init_exclusive {ι Level Record F E σ : Type}
    (self : BaseHandler Level Record F) (w : σ) :
    (System.init self w : System ι Level Record F E σ).Exclusive := by
  constructor
  · intro i j hi
    simp [System.init, PC.inCS] at hi
  · intro i hi
    simp [System.init, PC.inCS] at hi

section ConcurrentProofs

variable {ι Level Record F E σ : Type} [DecidableEq ι]

/-- A goroutine that moves to a point outside the critical section, the mutex
untouched, keeps the exclusion. -/
theorem System.exclusive_of_leave {s t : System ι Level Record F E σ} {i : ι} {p : PC E}
    (hs : s.Exclusive) (hpc : t.pc = Function.update s.pc i p) (hp : p.inCS = false)
    (hself : t.self = s.self) : t.Exclusive := by
  have key : ∀ j, (t.pc j).inCS = true → j ≠ i ∧ (s.pc j).inCS = true := by
    intro j hj
    rw [hpc] at hj
    by_cases hji : j = i
    · subst hji
      simp [hp] at hj
    · rw [Function.update_noteq hji] at hj
      exact ⟨hji, hj⟩
  constructor
  · intro j k hj hk
    exact hs.1 j k (key j hj).2 (key k hk).2
  · intro j hj
    rw [hself]
    exact hs.2 j (key j hj).2

/-- A goroutine that moves inside the critical section, the mutex untouched,
keeps the exclusion. -/
theorem System.exclusive_of_stay {s t : System ι Level Record F E σ} {i : ι} {p : PC E}
    (hs : s.Exclusive) (hpc : t.pc = Function.update s.pc i p) (hi : (s.pc i).inCS = true)
    (hself : t.self = s.self) : t.Exclusive := by
  have key : ∀ j, (t.pc j).inCS = true → (s.pc j).inCS = true := by
    intro j hj
    rw [hpc] at hj
    by_cases hji : j = i
    · subst hji
      exact hi
    · rw [Function.update_noteq hji] at hj
      exact hj
  constructor
  · intro j k hj hk
    exact hs.1 j k (key j hj) (key k hk)
  · intro j _
    rw [hself]
    exact hs.2 i hi

/-- A goroutine that acquires the free mutex is alone in the critical section. -/
theorem System.exclusive_of_acquire {s t : System ι Level Record F E σ} {i : ι} {p : PC E}
    (hs : s.Exclusive) (hpc : t.pc = Function.update s.pc i p) (hfree : s.self.lock = false)
    (hheld : t.self.lock = true) : t.Exclusive := by
  have key : ∀ j, (t.pc j).inCS = true → j = i := by
    intro j hj
    by_contra hji
    rw [hpc, Function.update_noteq hji] at hj
    have := hs.2 j hj
    rw [hfree] at this
    exact Bool.false_ne_true this
  constructor
  · intro j k hj hk
    rw [key j hj, key k hk]
  · intro j _
    exact hheld

/-- A goroutine that leaves the critical section leaves it empty. -/
theorem System.exclusive_of_release {s t : System ι Level Record F E σ} {i : ι} {p : PC E}
    (hs : s.Exclusive) (hpc : t.pc = Function.update s.pc i p) (hi : (s.pc i).inCS = true)
    (hp : p.inCS = false) : t.Exclusive := by
  have key : ∀ j, (t.pc j).inCS = true → False := by
    intro j hj
    rw [hpc] at hj
    by_cases hji : j = i
    · subst hji
      simp [hp] at hj
    · rw [Function.update_noteq hji] at hj
      exact hji (hs.1 j i hj hi)
  constructor
  · intro j k hj _
    exact (key j hj).elim
  · intro j hj
    exact (key j hj).elim

/-- One step of any goroutine keeps the exclusion. -/
theorem System.step_exclusive (handler : Handler Record E σ) (records : ι → Record) (i : ι)
    (s : System ι Level Record F E σ) (hs : s.Exclusive) :
    (System.step handler records i s).Exclusive := by
  unfold System.step
  split
  · exact System.exclusive_of_leave hs rfl rfl rfl
  · rename_i rv hpc
    split
    · split
      · exact hs
      · rename_i s1 hlock
        have hfree : s.self.lock = false := by
          cases hl : s.self.lock with
          | false => rfl
          | true => simp [BaseHandler.Lock, hl] at hlock
        have hheld : s1.lock = true := by
          simp [BaseHandler.Lock, hfree] at hlock
          rw [← hlock]
        exact System.exclusive_of_acquire hs rfl hfree hheld
    · exact System.exclusive_of_leave hs rfl rfl rfl
  · rename_i rv hpc
    exact System.exclusive_of_stay hs rfl (by rw [hpc]; rfl) rfl
  · rename_i rv err hpc
    exact System.exclusive_of_stay hs rfl (by rw [hpc]; rfl) rfl
  · rename_i rv hpc
    exact System.exclusive_of_stay hs rfl (by rw [hpc]; rfl) rfl
  · rename_i rv hpc
    split
    · exact System.exclusive_of_release hs rfl (by rw [hpc]; rfl) rfl
    · exact System.exclusive_of_release hs rfl (by rw [hpc]; rfl) rfl
  · exact hs
  · exact hs

/-- Every schedule keeps the exclusion. -/
theorem System.run_exclusive (handler : Handler Record E σ) (records : ι → Record)
    (schedule : List ι) (s : System ι Level Record F E σ) (hs : s.Exclusive) :
    (System.run handler records schedule s).Exclusive := by
  induction schedule generalizing s with
  | nil => exact hs
  | cons i rest ih => exact ih _ (System.step_exclusive handler records i s hs)

/-- C9: two goroutines call `Handle2` on the same `BaseHandler`, each with its own
record. Whatever the handler, the records, the state of the handler at the start
and the order in which the goroutines take their steps, the two are never both
between the return of `Lock` and the deferred `Unlock`. -/
theorem Handle2_mutual_exclusion (handler : Handler Record E σ) (records : Fin 2 → Record)
    (self : BaseHandler Level Record F) (w : σ) (schedule : List (Fin 2)) :
    ¬ (((System.run handler records schedule (System.init self w)).pc 0).inCS = true ∧
        ((System.run handler records schedule (System.init self w)).pc 1).inCS = true) := by
  intro h
  have hex := System.run_exclusive handler records schedule (System.init self w)
    (System.init_exclusive self w)
  have := hex.1 0 1 h.1 h.2
  exact absurd this (by decide)

/-- While a goroutine is in the critical section the mutex is held, whatever
the number of goroutines. -/
theorem Handle2_critical_section_locked (handler : Handler Record E σ) (records : ι → Record)
    (self : BaseHandler Level Record F) (w : σ) (schedule : List ι) (i : ι)
    (h : ((System.run handler records schedule (System.init self w)).pc i).inCS = true) :
    (System.run handler records schedule (System.init self w)).self.lock = true :=
  (System.run_exclusive handler records schedule (System.init self w)
    (System.init_exclusive self w)).2 i h

end ConcurrentProofs

/-- The critical section is reached: with both records passing the example
filter, after goroutine `0` took two steps and goroutine `1` three, goroutine `0`
is inside `Emit` and goroutine `1` waits in `Lock`. -/
theorem System.run_example_waiting :
    ((System.run exampleHandler (fun _ : Fin 2 => 3) [0, 0, 1, 1, 1]
        (System.init exampleBase [])).pc 0 = PC.locked 1) ∧
      ((System.run exampleHandler (fun _ : Fin 2 => 3) [0, 0, 1, 1, 1]
        (System.init exampleBase [])).pc 1 = PC.filtered 1) := by
  decide

/-- Both calls complete: each goroutine returns `1` and both records are written. -/
theorem System.run_example_complete :
    ((System.run exampleHandler (fun _ : Fin 2 => 3) [0, 1, 0, 1, 0, 0, 1, 0, 1, 1, 1, 1]
        (System.init exampleBase [])).pc 0 = PC.returned 1) ∧
      ((System.run exampleHandler (fun _ : Fin 2 => 3) [0, 1, 0, 1, 0, 0, 1, 0, 1, 1, 1, 1]
        (System.init exampleBase [])).pc 1 = PC.returned 1) ∧
      (System.run exampleHandler (fun _ : Fin 2 => 3) [0, 1, 0, 1, 0, 0, 1, 0, 1, 1, 1, 1]
        (System.init exampleBase [])).world = [3, 3] ∧
      (System.run exampleHandler (fun _ : Fin 2 => 3) [0, 1, 0, 1, 0, 0, 1, 0, 1, 1, 1, 1]
        (System.init exampleBase [])).self.lock = false := by
  decide

/-- The waiting call of `exampleWaiting` completes once the lock is free: goroutine
`1` returns `1`, its record is written once after the record of goroutine `0`, and
the lock is free again. -/
theorem System.run_example_resumed :
    exampleWaiting.pc 0 = PC.returned 1 ∧
      exampleWaiting.pc 1 = PC.filtered 1 ∧
      exampleWaiting.world = [3] ∧
      (System.run exampleHandler (fun _ : Fin 2 => 3) [1, 1, 1, 1] exampleWaiting).pc 1 =
        PC.returned 1 ∧
      (System.run exampleHandler (fun _ : Fin 2 => 3) [1, 1, 1, 1] exampleWaiting).world =
        [3, 3] ∧
      (System.run exampleHandler (fun _ : Fin 2 => 3) [1, 1, 1, 1]
        exampleWaiting).self.lock = false := by
  decide

/-- The waiting call of `exampleWaitingError` completes once the lock is free: its
`Emit` fails, `HandleError` writes `107` once after the `107` of goroutine `0`,
with the lock held until the last step. -/
theorem System.run_example_resumed_error :
    exampleWaitingError.world = [107] ∧
      (System.run exampleHandler (fun _ : Fin 2 => 2) [1, 1]
        exampleWaitingError).pc 1 = PC.emitted 1 (some 7) ∧
      (System.run exampleHandler (fun _ : Fin 2 => 2) [1, 1]
        exampleWaitingError).self.lock = true ∧
      (System.run exampleHandler (fun _ : Fin 2 => 2) [1, 1, 1]
        exampleWaitingError).world = [107, 107] ∧
      (System.run exampleHandler (fun _ : Fin 2 => 2) [1, 1, 1]
        exampleWaitingError).self.lock = true ∧
      (System.run exampleHandler (fun _ : Fin 2 => 2) [1, 1, 1, 1]
        exampleWaitingError).pc 1 = PC.returned 1 ∧
      (System.run exampleHandler (fun _ : Fin 2 => 2) [1, 1, 1, 1]
        exampleWaitingError).world = [107, 107] ∧
      (System.run exampleHandler (fun _ : Fin 2 => 2) [1, 1, 1, 1]
        exampleWaitingError).self.lock = false := by
  decide

/-- The two embeddings of `Handle2` agree: a goroutine that runs alone for five
steps ends where the one-call definition says, with the same `BaseHandler` and the
same handler state; a call that the one-call definition reports as blocked still
waits in `Lock` after `Filter`. -/
theorem System.run_alone_eq_Handle2 {Level Record F E σ : Type}
    (self : BaseHandler Level Record F) (handler : Handler Record E σ) (record : Record)
    (w : σ) :
    (System.run handler (fun _ : Unit => record) [(), (), (), (), ()]
        (System.init self w)).self = (self.Handle2 handler record w).self ∧
      (System.run handler (fun _ : Unit => record) [(), (), (), (), ()]
        (System.init self w)).world = (self.Handle2 handler record w).world ∧
      (System.run handler (fun _ : Unit => record) [(), (), (), (), ()]
        (System.init self w)).pc () =
        (match (self.Handle2 handler record w).outcome with
          | .returned rv => PC.returned rv
          | .blocked => PC.filtered (handler.Filter record w).1
          | .fatal => PC.fatal) := by
  by_cases hrv : 0 < (handler.Filter record w).1
  · cases hl : self.lock with
    | true =>
      rw [Handle2_eq_of_held self handler record w hrv hl]
      simp [System.run, System.step, System.init, hrv, BaseHandler.Lock, hl]
    | false =>
      rw [Handle2_eq_of_free self handler record w hrv hl]
      obtain ⟨sf, name, levels, formatter, lock⟩ := self
      simp only at hl
      subst hl
      cases hem : (handler.Emit record (handler.Filter record w).2).1 <;>
        simp [System.run, System.step, System.init, hrv, BaseHandler.Lock,
          BaseHandler.Unlock, hem]
  · rw [Handle2_eq_of_rejected self handler record w (not_lt.mp hrv)]
    simp [System.run, System.step, System.init, hrv]

end Logging
